import Mathlib

set_option maxRecDepth 100000

/-!
# Verification of the osmnx `_downloader` request layer

A shallow embedding of `src/osmnx/_downloader.py` (caching, DNS pinning,
Overpass slot scheduling, request/retry/parse pipeline) together with
theorems settling the frozen claims about its specification.

Conventions used throughout:
* Python machine state (the on-disk cache folder, the process-wide
  `socket.getaddrinfo` override) is passed explicitly.
* Network I/O is modelled by oracles: a list of `Response` values consumed by
  successive HTTP exchanges, a list of `Poll` values consumed by successive
  status-endpoint polls, and a pure function for `socket.gethostbyname`.
* Python exceptions are modelled with `Except`; an uncaught exception is an
  `Except.error` result.
* Durations are modelled as integers (the source passes integral seconds).
* `json.loads (json.dumps v) = v` — the round-trip contract of Python's
  `json` module, an external collaborator — is modelled by letting a cache
  file hold the parsed JSON value directly.
-/

/-! ## List/string utilities mirroring the Python string operations used -/

/-- Python `str.split(sep)` for a single-character separator, over char lists.
`"".split(s) = [""]`, consecutive separators produce empty fields. -/
def splitChar (sep : Char) : List Char → List (List Char)
  | [] => [[]]
  | c :: cs =>
    let r := splitChar sep cs
    if c = sep then [] :: r
    else
      match r with
      | [] => [[c]]
      | h :: t => (c :: h) :: t

/-- Digits of a char list read as a base-10 natural number. -/
def natFromDigits (l : List Char) : Nat :=
  l.foldl (fun a c => a * 10 + (c.toNat - 48)) 0

/-- Python `int(s)`: strip whitespace, optional sign, then decimal digits.
(PEP-515 underscores are not modelled; no status token contains them.) -/
def pyIntParse (s : List Char) : Option Int :=
  let t := (s.dropWhile Char.isWhitespace).reverse.dropWhile Char.isWhitespace |>.reverse
  let signAndDigits : Int × List Char :=
    match t with
    | '+' :: r => (1, r)
    | '-' :: r => (-1, r)
    | r => (1, r)
  if signAndDigits.2 ≠ [] ∧ signAndDigits.2.all Char.isDigit then
    some (signAndDigits.1 * Int.ofNat (natFromDigits signAndDigits.2))
  else
    none

/-- Whether `needle` occurs as a contiguous substring of `hay`
(Python `needle in hay` for strings). -/
def containsSub (hay needle : List Char) : Bool :=
  needle.isPrefixOf hay ||
    match hay with
    | [] => false
    | _ :: t => containsSub t needle

/-- Python `str.rstrip("/")`. -/
def rstripSlash (s : String) : String :=
  String.mk ((s.data.reverse.dropWhile (· = '/')).reverse)

/-! ## UTF-8 encoding and SHA-1 (the cache-key digest, `hashlib.sha1`) -/

/-- UTF-8 encoding of one character, as byte values. -/
def utf8Char (c : Char) : List Nat :=
  let n := c.toNat
  if n < 0x80 then [n]
  else if n < 0x800 then
    [0xC0 ||| (n >>> 6), 0x80 ||| (n &&& 0x3F)]
  else if n < 0x10000 then
    [0xE0 ||| (n >>> 12), 0x80 ||| ((n >>> 6) &&& 0x3F), 0x80 ||| (n &&& 0x3F)]
  else
    [0xF0 ||| (n >>> 18), 0x80 ||| ((n >>> 12) &&& 0x3F),
     0x80 ||| ((n >>> 6) &&& 0x3F), 0x80 ||| (n &&& 0x3F)]

/-- UTF-8 encoding of a character list (`url.encode("utf-8")`). -/
def utf8Encode (s : List Char) : List Nat :=
  (s.map utf8Char).flatten

/-- Left-rotation of a 32-bit word represented as a `Nat < 2^32`. -/
def rotl32 (n x : Nat) : Nat :=
  ((x <<< n) ||| (x >>> (32 - n))) % 4294967296

/-- SHA-1 round constants. -/
def sha1K (i : Nat) : Nat :=
  if i < 20 then 0x5A827999
  else if i < 40 then 0x6ED9EBA1
  else if i < 60 then 0x8F1BBCDC
  else 0xCA62C1D6

/-- SHA-1 round functions (complement modelled as xor with the 32-bit mask). -/
def sha1F (i b c d : Nat) : Nat :=
  if i < 20 then (b &&& c) ||| ((b ^^^ 0xFFFFFFFF) &&& d)
  else if i < 40 then b ^^^ c ^^^ d
  else if i < 60 then (b &&& c) ||| (b &&& d) ||| (c &&& d)
  else b ^^^ c ^^^ d

/-- Big-endian 32-bit words from a 64-byte block. -/
def w16 : List Nat → List Nat
  | b0 :: b1 :: b2 :: b3 :: rest => (((b0 * 256 + b1) * 256 + b2) * 256 + b3) :: w16 rest
  | _ => []

/-- Extend the 16-word schedule by `n` further words. -/
def extendW (ws : List Nat) : Nat → List Nat
  | 0 => ws
  | n + 1 =>
    let ws := extendW ws n
    let k := ws.length
    ws ++ [rotl32 1 (ws.getD (k - 3) 0 ^^^ ws.getD (k - 8) 0 ^^^
                     ws.getD (k - 14) 0 ^^^ ws.getD (k - 16) 0)]

/-- The five 32-bit words of SHA-1 chaining state. -/
structure SHA1State where
  a : Nat
  b : Nat
  c : Nat
  d : Nat
  e : Nat
  deriving DecidableEq, Repr

/-- SHA-1 compression of one 64-byte block. -/
def sha1Compress (st : SHA1State) (block : List Nat) : SHA1State :=
  let w := extendW (w16 block) 64
  let f := (List.range 80).foldl
    (fun (t : Nat × Nat × Nat × Nat × Nat) i =>
      let a := t.1
      let b := t.2.1
      let c := t.2.2.1
      let d := t.2.2.2.1
      let e := t.2.2.2.2
      let tmp := (rotl32 5 a + sha1F i b c d + e + sha1K i + w.getD i 0) % 4294967296
      (tmp, a, rotl32 30 b, c, d))
    (st.a, st.b, st.c, st.d, st.e)
  ⟨(st.a + f.1) % 4294967296,
   (st.b + f.2.1) % 4294967296,
   (st.c + f.2.2.1) % 4294967296,
   (st.d + f.2.2.2.1) % 4294967296,
   (st.e + f.2.2.2.2) % 4294967296⟩

/-- Big-endian 8-byte encoding of a natural number. -/
def be8 (n : Nat) : List Nat :=
  [(n >>> 56) &&& 255, (n >>> 48) &&& 255, (n >>> 40) &&& 255, (n >>> 32) &&& 255,
   (n >>> 24) &&& 255, (n >>> 16) &&& 255, (n >>> 8) &&& 255, n &&& 255]

/-- SHA-1 message padding to a multiple of 64 bytes. -/
def sha1Pad (msg : List Nat) : List Nat :=
  msg ++ [0x80] ++ List.replicate ((119 - msg.length % 64) % 64) 0 ++ be8 (msg.length * 8)

/-- Split a byte list into 64-byte blocks (fuel-based structural recursion so
that the definition reduces in the kernel; the fuel `l.length` always
suffices since each step consumes a nonempty prefix). -/
def chunksAux : Nat → List Nat → List (List Nat)
  | 0, _ => []
  | _, [] => []
  | n + 1, l => l.take 64 :: chunksAux n (l.drop 64)

/-- Split a byte list into 64-byte blocks. -/
def chunks64 (l : List Nat) : List (List Nat) :=
  chunksAux l.length l

/-- SHA-1 of a byte sequence. -/
def sha1Bytes (msg : List Nat) : SHA1State :=
  (chunks64 (sha1Pad msg)).foldl sha1Compress
    ⟨0x67452301, 0xEFCDAB89, 0x98BADCFE, 0x10325476, 0xC3D2E1F0⟩

/-- Lowercase hexadecimal digit. -/
def hexDigitChar (n : Nat) : Char :=
  "0123456789abcdef".data.getD n '0'

/-- Fixed-width 8-hex-digit rendering of a 32-bit word. -/
def hex8 (w : Nat) : List Char :=
  [hexDigitChar ((w >>> 28) &&& 15), hexDigitChar ((w >>> 24) &&& 15),
   hexDigitChar ((w >>> 20) &&& 15), hexDigitChar ((w >>> 16) &&& 15),
   hexDigitChar ((w >>> 12) &&& 15), hexDigitChar ((w >>> 8) &&& 15),
   hexDigitChar ((w >>> 4) &&& 15), hexDigitChar (w &&& 15)]

/-- `hashlib.sha1(url.encode("utf-8")).hexdigest()`: 40 lowercase hex
characters (160 bits). -/
def sha1Hex (s : String) : String :=
  let st := sha1Bytes (utf8Encode s.data)
  String.mk (hex8 st.a ++ hex8 st.b ++ hex8 st.c ++ hex8 st.d ++ hex8 st.e)

/-- Sanity check of the SHA-1 embedding against the standard test vector. -/
theorem sha1Hex_abc : sha1Hex "abc" = "a9993e364706816aba3e25717850c26c9cd0d89d" := by decide

/-! ## JSON values (`response.json()` results / cache file contents) -/

/-- JSON values as Python's `json` module decodes them (floats are not
modelled; the bodies this layer inspects carry no fractional numbers). -/
inductive Json where
  | null : Json
  | bool (b : Bool) : Json
  | num (n : Int) : Json
  | str (s : String) : Json
  | arr (xs : List Json) : Json
  | obj (kvs : List (String × Json)) : Json
  deriving Inhabited

/-- Python `response_json is None`: the decoded value is JSON `null`. -/
def Json.isNull : Json → Bool
  | .null => true
  | _ => false

/-- Python `elem == "s"` for a JSON value (only strings compare equal). -/
def pyEqStr (j : Json) (s : String) : Bool :=
  match j with
  | .str t => t == s
  | _ => false

/-- Python `x == 0` for a JSON value (`0` and `False` compare equal to 0). -/
def pyEqZero (j : Json) : Bool :=
  match j with
  | .num 0 => true
  | .bool false => true
  | _ => false

/-- Exceptions the embedded code can raise or classify. -/
inductive Exc where
  | unboundLocal
  | insufficientResponse
  | responseStatusCode
  | valueError
  | indexError
  | typeError
  | lookupError
  | connectionError
  deriving DecidableEq, Repr

/-- Python `needle in body` for a decoded JSON body: key membership for
dicts, element membership for lists, substring for strings, `TypeError`
for scalars. -/
def pyIn (needle : String) (j : Json) : Except Exc Bool :=
  match j with
  | .obj kvs => .ok (kvs.any (fun p => p.1 == needle))
  | .arr xs => .ok (xs.any (fun x => pyEqStr x needle))
  | .str s => .ok (containsSub s.data needle.data)
  | _ => .error .typeError

/-- `data[k]` on a decoded JSON value, `none` when the lookup would raise
(`KeyError` on a dict without the key, `TypeError` on a non-dict). -/
def jsonGet (j : Json) (k : String) : Option Json :=
  match j with
  | .obj kvs => (kvs.find? (fun p => p.1 == k)).map (fun p => p.2)
  | _ => none

/-- The slice of `osmnx.settings` this layer reads. -/
structure Settings where
  use_cache : Bool
  overpass_rate_limit : Bool
  overpass_endpoint : String
  nominatim_endpoint : String
  nominatim_key : Option String
  doh_url_template : Option String

/-! ## CacheStore (`_save_to_cache` / `_url_in_cache` / `_retrieve_from_cache`)

The cache folder is modelled as an association list from filename to the
JSON value the file holds (`write_text (json.dumps v)` followed by
`json.loads ∘ read_text` recovers `v`: the round-trip contract of Python's
`json` module). A later write shadows an earlier one, i.e. whole-file
replacement. -/

abbrev CacheDir := List (String × Json)

/-- Read the file named `name`, if present. -/
def lookupFile : CacheDir → String → Option Json
  | [], _ => none
  | (n, j) :: rest, name => if n = name then some j else lookupFile rest name

/-- Write (or overwrite) the file named `name`. -/
def writeFile (c : CacheDir) (name : String) (j : Json) : CacheDir :=
  (name, j) :: c

/-- `sha1(url.encode("utf-8")).hexdigest() + ".json"`: the cache filename,
a pure function of the URL string alone. -/
def cacheFilename (url : String) : String :=
  sha1Hex url ++ ".json"

/-- `_save_to_cache(url, response_json, ok)`. The `ok` parameter is
documented as `response.ok` (a bool) but every call site passes
`response.status_code` (an int), so it is modelled as the integer actually
received; Python's `if not ok` is the integer truthiness test `ok = 0`. -/
def save_to_cache (S : Settings) (cache : CacheDir) (url : String)
    (response_json : Json) (ok : Nat) : CacheDir :=
  if S.use_cache then
    if ok = 0 then cache
    else if response_json.isNull then cache
    else writeFile cache (cacheFilename url) response_json
  else cache

/-- `_url_in_cache(url)`: the cache filepath if the file exists. -/
def url_in_cache (cache : CacheDir) (url : String) : Option String :=
  if (lookupFile cache (cacheFilename url)).isSome then some (cacheFilename url) else none

/-- `_retrieve_from_cache(url, check_remark)`. The strict-mode remark test
is Python `"remark" in response_json`, which raises `TypeError` on a scalar
cached body; `check_remark and ...` short-circuits, so relaxed mode never
evaluates the membership test. -/
def retrieve_from_cache (S : Settings) (cache : CacheDir) (url : String)
    (check_remark : Bool) : Except Exc (Option Json) :=
  if S.use_cache then
    match url_in_cache cache url with
    | none => .ok none
    | some fp =>
      match lookupFile cache fp with
      | none => .ok none
      | some response_json =>
        if check_remark then
          match pyIn "remark" response_json with
          | .error e => .error e
          | .ok true => .ok none
          | .ok false => .ok (some response_json)
        else .ok (some response_json)
  else .ok none

/-! ## ResponseParser (`_parse_response`) -/

/-- An HTTP response: its status code, and `some body` when the payload
decodes as JSON (`response.json()`), `none` when decoding raises. -/
structure Response where
  status_code : Nat
  body : Option Json

/-- `response.ok` in requests: true iff `status_code < 400`. -/
def Response.ok (r : Response) : Bool :=
  r.status_code < 400

/-- `_parse_response(response)`: decode failure raises
`InsufficientResponseError` when the status was OK and
`ResponseStatusCodeError` otherwise; a decoded body is returned (a `remark`
field is only logged), except that the remark membership test itself raises
`TypeError` on scalar bodies. -/
def parse_response (r : Response) : Except Exc Json :=
  match r.body with
  | none => if r.ok then .error .insufficientResponse else .error .responseStatusCode
  | some response_json =>
    match pyIn "remark" response_json with
    | .error e => .error e
    | .ok _ => .ok response_json

/-! ## HostResolver (`_hostname_from_url` / `_resolve_host_via_doh` /
`_config_dns`) -/

/-- Scan forward to the first `"://"` and return what follows, if any. -/
def afterSchemeSep : List Char → Option (List Char)
  | ':' :: '/' :: '/' :: rest => some rest
  | _ :: rest => afterSchemeSep rest
  | [] => none

/-- `urlparse(url).netloc` for the schemed URLs this layer handles:
the segment after `"://"` up to the first `/`, `?` or `#`. -/
def netlocOf (url : String) : List Char :=
  match afterSchemeSep url.data with
  | none => []
  | some rest => rest.takeWhile (fun c => !(c == '/') && !(c == '?') && !(c == '#'))

/-- `_hostname_from_url(url)`: `urlparse(url).netloc.split(":")[0]`. -/
def hostname_from_url (url : String) : String :=
  String.mk ((splitChar ':' (netlocOf url)).headD [])

/-- Network and pacing events, in the order the code performs them. -/
inductive Ev where
  | gethostbyname (host : String)
  | dohGet
  | statusGet
  | sleep (secs : Int)
  | httpGet
  | httpPost
  deriving DecidableEq, Repr

/-- The outcome of `_resolve_host_via_doh`'s extraction
`data["Answer"][0]["data"]` guarded by `response.ok and data["Status"] == 0`.
A missing key / wrong shape raises (`KeyError`/`TypeError`/`IndexError`),
which the function's `except requests.exceptions.RequestException` does not
catch. -/
def dohExtract (r : Response) (hostname : String) : Except Exc String :=
  match r.body with
  | none => .ok hostname   -- JSONDecodeError is a RequestException: caught, fall back
  | some data =>
    if r.ok then
      match jsonGet data "Status" with
      | none => .error .lookupError
      | some st =>
        if pyEqZero st then
          match jsonGet data "Answer" with
          | none => .error .lookupError
          | some (.arr (a :: _)) =>
            match jsonGet a "data" with
            | some (.str ip) => .ok ip
            | some _ => .error .typeError
            | none => .error .lookupError
          | some (.arr []) => .error .indexError
          | some _ => .error .typeError
        else .ok hostname
    else .ok hostname

/-- `_resolve_host_via_doh(hostname)`: disabled template or an unreachable
DoH server (oracle `none`) falls back to the hostname itself. -/
def resolve_host_via_doh (S : Settings) (dohResp : Option Response)
    (hostname : String) : Except Exc String × List Ev :=
  match S.doh_url_template with
  | none => (.ok hostname, [])
  | some _ =>
    match dohResp with
    | none => (.ok hostname, [.dohGet])   -- RequestException: caught, fall back
    | some r => (dohExtract r hostname, [.dohGet])

/-- The process-wide DNS override: `none` before any pin; after a pin, the
hostname/IP pair captured by the most recently installed closure. Installing
a new closure replaces `socket.getaddrinfo` wholesale, and the closure
delegates non-matching names to the ORIGINAL resolver captured at import
time, so at most one hostname is ever overridden. -/
abbrev PinState := Option (String × String)

/-- `_config_dns(url)`: always resolves the URL's hostname (via
`socket.gethostbyname`, falling back to DoH on `gaierror`) and installs a
fresh override closure. The previous override (if any) is discarded — the
code mutates `socket.getaddrinfo` without consulting it. -/
def config_dns (S : Settings) (gha : String → Except Unit String)
    (dohResp : Option Response) (url : String) : Except Exc PinState × List Ev :=
  let hostname := hostname_from_url url
  match gha hostname with
  | .ok ip => (.ok (some (hostname, ip)), [.gethostbyname hostname])
  | .error _ =>
    let r := resolve_host_via_doh S dohResp hostname
    match r.1 with
    | .ok ip => (.ok (some (hostname, ip)), .gethostbyname hostname :: r.2)
    | .error e => (.error e, .gethostbyname hostname :: r.2)

/-- The mutated `socket.getaddrinfo` as a function of the current pin state:
the closure maps the pinned hostname to its pinned IP and delegates
everything else (including any hostname pinned by an earlier, discarded
closure) to the original resolver `orig`. -/
def installedGetaddrinfo (pin : PinState) (orig : String → String)
    (host : String) : String :=
  match pin with
  | none => orig host
  | some (h, ip) => if host = h then orig ip else orig host

/-! ## SlotScheduler (`_get_pause`) -/

/-- UTC timestamp fields parsed by
`datetime.strptime(s, "%Y-%m-%dT%H:%M:%SZ,")`, converted to epoch seconds.
The status feed always emits fixed-width fields, which is what is modelled;
the process locale is taken to be UTC, making `astimezone(timezone.utc)` the
identity. -/
def isLeapYear (y : Nat) : Bool :=
  y % 4 == 0 && (y % 100 != 0 || y % 400 == 0)

/-- Days in a month, as `datetime` validates day-of-month. -/
def daysInMonth (y m : Nat) : Nat :=
  if m == 2 then (if isLeapYear y then 29 else 28)
  else if m == 4 || m == 6 || m == 9 || m == 11 then 30
  else 31

/-- Days since 1970-01-01 of a civil date (standard era-based algorithm;
all divisions are on non-negative operands). -/
def daysFromCivil (y m d : Int) : Int :=
  let yy := if m ≤ 2 then y - 1 else y
  let era := yy / 400
  let yoe := yy - era * 400
  let doy := (153 * (if m > 2 then m - 3 else m + 9) + 2) / 5 + d - 1
  let doe := yoe * 365 + yoe / 4 - yoe / 100 + doy
  era * 146097 + doe - 719468

/-- `datetime.strptime(ts, "%Y-%m-%dT%H:%M:%SZ,")` as epoch seconds;
`none` when strptime (or the datetime constructor) would raise
`ValueError`. -/
def strptimeSlot (s : List Char) : Option Int :=
  match s with
  | [y1, y2, y3, y4, '-', m1, m2, '-', d1, d2, 'T',
     h1, h2, ':', n1, n2, ':', s1, s2, 'Z', ','] =>
    if ([y1, y2, y3, y4, m1, m2, d1, d2, h1, h2, n1, n2, s1, s2].all Char.isDigit) then
      let y := natFromDigits [y1, y2, y3, y4]
      let mo := natFromDigits [m1, m2]
      let da := natFromDigits [d1, d2]
      let ho := natFromDigits [h1, h2]
      let mi := natFromDigits [n1, n2]
      let se := natFromDigits [s1, s2]
      if 1 ≤ y ∧ 1 ≤ mo ∧ mo ≤ 12 ∧ 1 ≤ da ∧ da ≤ daysInMonth y mo ∧
          ho ≤ 23 ∧ mi ≤ 59 ∧ se ≤ 59 then
        some (daysFromCivil (Int.ofNat y) (Int.ofNat mo) (Int.ofNat da) * 86400 +
              Int.ofNat ho * 3600 + Int.ofNat mi * 60 + Int.ofNat se)
      else none
    else none
  | _ => none

/-- `int(np.ceil((utc_time - utc_now).total_seconds()))` with the current
time carried as integer microseconds: the ceiling of the remaining
seconds. -/
def ceilSecondsUntil (epoch nowMicro : Int) : Int :=
  Int.fdiv (epoch * 1000000 - nowMicro + 999999) 1000000

/-- One poll of the Overpass status endpoint: either the connection fails
(`requests.exceptions.ConnectionError`) or a plaintext body is returned. -/
inductive Poll where
  | connFail
  | text (t : String)

/-- `response.text.split("\n")[4]` — `none` models the `IndexError` that the
surrounding handler catches. -/
def statusLine (text : String) : Option (List Char) :=
  (splitChar '\n' text.data).get? 4

/-- `status.split(" ")[0]` (a split is never empty). -/
def firstTok (st : List Char) : List Char :=
  (splitChar ' ' st).headD []

/-- Result of `_get_pause`: the events performed, the unconsumed remainder
of the poll oracle, and either the returned pause or an uncaught
exception. -/
structure GPRes where
  events : List Ev
  rest : List Poll
  out : Except Exc Int

/-- `_get_pause(base_endpoint, recursive_delay, default_duration)`.
An exhausted poll oracle behaves like an unreachable network
(`ConnectionError`, caught: default duration). The current time is held
fixed across recursive polls. Note the `"Currently"` branch recurses as
`_get_pause(base_endpoint)` — with the DEFAULT `recursive_delay=5` and
`default_duration=60`, not the caller's values — and that inside the
`"Slot"` branch an `IndexError`/`ValueError` from the timestamp extraction
is raised, not caught. -/
def get_pause (S : Settings) (nowMicro : Int) (polls : List Poll)
    (recursive_delay default_duration : Int) : GPRes :=
  if !S.overpass_rate_limit then ⟨[], polls, .ok 0⟩
  else
    match polls with
    | [] => ⟨[.statusGet], [], .ok default_duration⟩
    | .connFail :: rest => ⟨[.statusGet], rest, .ok default_duration⟩
    | .text t :: rest =>
      match statusLine t with
      | none => ⟨[.statusGet], rest, .ok default_duration⟩
      | some st =>
        let tok := firstTok st
        match pyIntParse tok with
        | some _ => ⟨[.statusGet], rest, .ok 0⟩
        | none =>
          if tok = "Slot".data then
            match (splitChar ' ' st).get? 3 with
            | none => ⟨[.statusGet], rest, .error .indexError⟩
            | some ts =>
              match strptimeSlot ts with
              | none => ⟨[.statusGet], rest, .error .valueError⟩
              | some epoch =>
                ⟨[.statusGet], rest, .ok (max (ceilSecondsUntil epoch nowMicro) 1)⟩
          else if tok = "Currently".data then
            let r := get_pause S nowMicro rest 5 60
            ⟨.statusGet :: .sleep recursive_delay :: r.events, r.rest, r.out⟩
          else ⟨[.statusGet], rest, .ok default_duration⟩

/-! ## RequestClient (`_nominatim_request` / `_overpass_request` /
`_google_request`) -/

/-- `requests.Request(method, url, params=...).prepare().url`: the URL with
the serialized query string appended in parameter order (percent-encoding is
not modelled; every downstream consumer treats the prepared URL as an opaque
string). -/
def prepareUrl (url : String) (params : List (String × String)) : String :=
  match params with
  | [] => url
  | _ => url ++ "?" ++ String.intercalate "&" (params.map (fun p => p.1 ++ "=" ++ p.2))

/-- `params[k] = v` on an insertion-ordered dict rendered as a list. -/
def setParam (ps : List (String × String)) (k v : String) : List (String × String) :=
  if ps.any (fun p => p.1 == k) then ps.map (fun p => if p.1 == k then (k, v) else p)
  else ps ++ [(k, v)]

/-- `params["key"] = settings.nominatim_key`; requests omits `None`-valued
parameters from the prepared URL, so a `None` key leaves it unchanged. -/
def nominatimParams (S : Settings) (params : List (String × String)) :
    List (String × String) :=
  match S.nominatim_key with
  | some k => setParam params "key" k
  | none => params

/-- `settings.nominatim_endpoint.rstrip("/") + "/" + request_type`. -/
def nominatimUrl (S : Settings) (request_type : String) : String :=
  rstripSlash S.nominatim_endpoint ++ "/" ++ request_type

/-- The prepared Nominatim URL (cache key input). -/
def nominatimPreparedUrl (S : Settings) (params : List (String × String))
    (request_type : String) : String :=
  prepareUrl (nominatimUrl S request_type) (nominatimParams S params)

/-- Result of one request-client invocation: events performed in order, the
returned JSON or uncaught exception, and the cache folder afterwards. -/
structure ReqResult where
  events : List Ev
  result : Except Exc Json
  cache : CacheDir

/-- `_nominatim_request(params, request_type, pause, error_pause)` driven by
the oracle list of successive HTTP responses (an empty oracle behaves as an
unreachable server). 429/504 responses sleep `error_pause` and retry
recursively; any other status is parsed and, on success, cached under the
prepared URL with `response.status_code` passed as the `ok` flag. -/
def nominatim_request (S : Settings) (cache : CacheDir)
    (params : List (String × String)) (request_type : String)
    (pause error_pause : Int) (responses : List Response) : ReqResult :=
  if request_type = "search" ∨ request_type = "reverse" ∨ request_type = "lookup" then
    let prepared_url := nominatimPreparedUrl S params request_type
    match retrieve_from_cache S cache prepared_url true with
    | .error e => ⟨[], .error e, cache⟩
    | .ok (some j) => ⟨[], .ok j, cache⟩
    | .ok none =>
      match responses with
      | [] => ⟨[.sleep pause, .httpGet], .error .connectionError, cache⟩
      | r :: rest =>
        if r.status_code = 429 ∨ r.status_code = 504 then
          let k := nominatim_request S cache params request_type pause error_pause rest
          ⟨.sleep pause :: .httpGet :: .sleep error_pause :: k.events, k.result, k.cache⟩
        else
          match parse_response r with
          | .error e => ⟨[.sleep pause, .httpGet], .error e, cache⟩
          | .ok j =>
            ⟨[.sleep pause, .httpGet], .ok j,
             save_to_cache S cache prepared_url j r.status_code⟩
  else ⟨[], .error .valueError, cache⟩

/-- `settings.overpass_endpoint.rstrip("/") + "/interpreter"`. -/
def overpassUrl (S : Settings) : String :=
  rstripSlash S.overpass_endpoint ++ "/interpreter"

/-- The prepared Overpass URL (GET-style representation used as cache key). -/
def overpassPreparedUrl (S : Settings) (data : List (String × String)) : String :=
  prepareUrl (overpassUrl S) data

/-- `_overpass_request(data, pause, error_pause)`.

Faithful ordering: `_config_dns` runs FIRST (before the cache lookup), then
the cache is consulted, then the pause is determined. When `pause` is not
`None` the code never assigns `this_pause`, so the log statement that reads
it raises `UnboundLocalError` — modelled by the `.error .unboundLocal`
branch. On 429/504 the new pause is `error_pause + _get_pause(...)` and the
whole call recurses on the remaining oracles. The pin state installed by
`_config_dns` is global and tracked by `config_dns`/`installedGetaddrinfo`;
only its events matter to this pipeline. -/
def overpass_request (S : Settings) (gha : String → Except Unit String)
    (dohResp : Option Response) (nowMicro : Int) (cache : CacheDir)
    (data : List (String × String)) (pause : Option Int) (error_pause : Int)
    (polls : List Poll) (responses : List Response) : ReqResult :=
  match config_dns S gha dohResp S.overpass_endpoint with
  | (.error e, evs) => ⟨evs, .error e, cache⟩
  | (.ok _, dnsEvents) =>
    let prepared_url := overpassPreparedUrl S data
    match retrieve_from_cache S cache prepared_url true with
    | .error e => ⟨dnsEvents, .error e, cache⟩
    | .ok (some j) => ⟨dnsEvents, .ok j, cache⟩
    | .ok none =>
      let gp : GPRes :=
        match pause with
        | none => get_pause S nowMicro polls 5 60
        | some _ => ⟨[], polls, .error .unboundLocal⟩
      match gp.out with
      | .error e => ⟨dnsEvents ++ gp.events, .error e, cache⟩
      | .ok this_pause =>
        match responses with
        | [] =>
          ⟨dnsEvents ++ gp.events ++ [.sleep this_pause, .httpPost],
           .error .connectionError, cache⟩
        | r :: rest =>
          if r.status_code = 429 ∨ r.status_code = 504 then
            let gp2 := get_pause S nowMicro gp.rest 5 60
            match gp2.out with
            | .error e =>
              ⟨dnsEvents ++ gp.events ++ [.sleep this_pause, .httpPost] ++ gp2.events,
               .error e, cache⟩
            | .ok p2 =>
              let k := overpass_request S gha dohResp nowMicro cache data pause
                         error_pause gp2.rest rest
              ⟨dnsEvents ++ gp.events ++ [.sleep this_pause, .httpPost] ++ gp2.events ++
                 .sleep (error_pause + p2) :: k.events,
               k.result, k.cache⟩
          else
            match parse_response r with
            | .error e =>
              ⟨dnsEvents ++ gp.events ++ [.sleep this_pause, .httpPost], .error e, cache⟩
            | .ok j =>
              ⟨dnsEvents ++ gp.events ++ [.sleep this_pause, .httpPost], .ok j,
               save_to_cache S cache prepared_url j r.status_code⟩

/-- `_google_request(url, pause)`: cache lookup, sleep, GET, parse, cache
write — no DNS pin, no slot poll, no retry. -/
def google_request (S : Settings) (cache : CacheDir) (url : String) (pause : Int)
    (responses : List Response) : ReqResult :=
  match retrieve_from_cache S cache url true with
  | .error e => ⟨[], .error e, cache⟩
  | .ok (some j) => ⟨[], .ok j, cache⟩
  | .ok none =>
    match responses with
    | [] => ⟨[.sleep pause, .httpGet], .error .connectionError, cache⟩
    | r :: _ =>
      match parse_response r with
      | .error e => ⟨[.sleep pause, .httpGet], .error e, cache⟩
      | .ok j => ⟨[.sleep pause, .httpGet], .ok j, save_to_cache S cache url j r.status_code⟩

/-! ## Concrete fixtures used by witnesses and counterexamples -/

/-- A settings snapshot with caching and rate limiting enabled. -/
def Sdefault : Settings :=
  ⟨true, true, "http://overpass-api.de/api", "https://nominatim.openstreetmap.org",
   none, none⟩

/-- Settings with caching and rate limiting disabled. -/
def SnoCache : Settings := ⟨false, false, "http://o.de", "http://n.org", none, none⟩

/-- Settings with caching and rate limiting enabled, short endpoints. -/
def SwithCache : Settings := ⟨true, true, "http://o.de", "http://n.org", none, none⟩

/-- A normal Overpass result body. -/
def elemsBody : Json := .obj [("elements", .arr [])]

/-- A JSON error body as a failed HTTP response might carry. -/
def errBody : Json := .obj [("error", .str "not found")]

/-- A system resolver that resolves every hostname `h` to `"ip-" ++ h`. -/
def ghaDemo : String → Except Unit String := fun h => .ok ("ip-" ++ h)

/-- A cache folder holding a previous Overpass answer for query `q`. -/
def cacheHit : CacheDir :=
  [(cacheFilename (overpassPreparedUrl Sdefault [("data", "q")]), elemsBody)]

/-! ## Shared helper lemmas -/

/-- C10: when the status line's first token is `"Currently"`, the code
sleeps the caller's `recursive_delay` and then recurses as
`_get_pause(base_endpoint)` — with the default `recursive_delay = 5` and
`default_duration = 60` — so the caller's values govern only the first
poll; every subsequent re-poll uses the defaults. -/
theorem currently_repoll_uses_defaults (S : Settings) (nowMicro rd dd : Int)
    (t : String) (rest : List Poll) (st : List Char)
    (hrl : S.overpass_rate_limit = true)
    (hline : statusLine t = some st)
    (htok : firstTok st = "Currently".data) :
    get_pause S nowMicro (Poll.text t :: rest) rd dd =
      ⟨Ev.statusGet :: Ev.sleep rd :: (get_pause S nowMicro rest 5 60).events,
       (get_pause S nowMicro rest 5 60).rest,
       (get_pause S nowMicro rest 5 60).out⟩ := by
  simp [get_pause, hrl, hline, htok]
  rfl

/-- C10 witness: with caller arguments `rd = 11`, `dd = 99`, the re-poll
hits a connection failure and returns the DEFAULT fallback 60, not the
caller's 99, after sleeping the caller's 11. -/
theorem currently_repoll_uses_defaults_witness :
    get_pause Sdefault 0
        [Poll.text "a\nb\nc\nd\nCurrently running a query...", Poll.connFail] 11 99 =
      ⟨[Ev.statusGet, Ev.sleep 11, Ev.statusGet], [], Except.ok 60⟩ := by
  rw [currently_repoll_uses_defaults Sdefault 0 11 99
    "a\nb\nc\nd\nCurrently running a query..." [Poll.connFail]
    "Currently running a query...".data rfl (by decide) (by decide)]
  rfl

/-! ## C5 — slot-scheduler classification -/

/-- C6: a 429/504 response makes the client sleep a backoff pause and retry
the same logical request with no retry limit, transparently to the caller;
any other status is never retried. First conjunct (Nominatim, fully
general): for any prefix of 429/504 responses followed by a non-retry
response, the trace is one `(sleep pause, GET, sleep error_pause)` group
per retry response followed by a final `(sleep pause, GET)`, and the single
parsed result of the final response is returned (and cached on success).
Second conjunct (Overpass retry step, fully general): EVERY 429/504
response, at any retry depth and for any oracles, produces one backoff
sleep of `error_pause + fresh _get_pause` and then re-runs the same logical
request (same settings, data, pause and error_pause) on the remaining
oracles — the recursion places no bound on the retry count. Third conjunct
(Overpass non-retry step, fully general): EVERY response whose status is
neither 429 nor 504 is never retried: its parsed result is returned (and
cached on success) with no backoff sleep and no further response consumed.
Fourth conjunct (Overpass): the concrete sequence (429, 429, 200) with rate
limiting off produces exactly two backoff sleeps of `error_pause + 0 = 60`
and returns the parsed result of the 200. -/
theorem backoff_retry_transparent :
    (∀ (S : Settings) (cache : CacheDir) (params : List (String × String))
        (rt : String) (pause error_pause : Int) (retries : List Response)
        (final : Response) (rest : List Response),
        (rt = "search" ∨ rt = "reverse" ∨ rt = "lookup") →
        retrieve_from_cache S cache (nominatimPreparedUrl S params rt) true = .ok none →
        (∀ r ∈ retries, r.status_code = 429 ∨ r.status_code = 504) →
        ¬(final.status_code = 429 ∨ final.status_code = 504) →
        nominatim_request S cache params rt pause error_pause (retries ++ final :: rest) =
          ⟨(retries.map fun _ => [Ev.sleep pause, Ev.httpGet, Ev.sleep error_pause]).flatten ++
             [Ev.sleep pause, Ev.httpGet],
           parse_response final,
           match parse_response final with
           | .error _ => cache
           | .ok j => save_to_cache S cache (nominatimPreparedUrl S params rt) j
                        final.status_code⟩) ∧
    (∀ (S : Settings) (gha : String → Except Unit String) (dohResp : Option Response)
        (nowMicro : Int) (cache : CacheDir) (data : List (String × String))
        (error_pause : Int) (polls : List Poll) (r : Response) (rest : List Response)
        (ip : String) (p1 p2 : Int) (gp1evs : List Ev) (gp1rest : List Poll)
        (gp2evs : List Ev) (gp2rest : List Poll),
        gha (hostname_from_url S.overpass_endpoint) = .ok ip →
        retrieve_from_cache S cache (overpassPreparedUrl S data) true = .ok none →
        get_pause S nowMicro polls 5 60 = ⟨gp1evs, gp1rest, .ok p1⟩ →
        get_pause S nowMicro gp1rest 5 60 = ⟨gp2evs, gp2rest, .ok p2⟩ →
        (r.status_code = 429 ∨ r.status_code = 504) →
        overpass_request S gha dohResp nowMicro cache data none error_pause polls (r :: rest) =
          ⟨Ev.gethostbyname (hostname_from_url S.overpass_endpoint) :: gp1evs ++
             [Ev.sleep p1, Ev.httpPost] ++ gp2evs ++ Ev.sleep (error_pause + p2) ::
             (overpass_request S gha dohResp nowMicro cache data none error_pause
                gp2rest rest).events,
           (overpass_request S gha dohResp nowMicro cache data none error_pause
              gp2rest rest).result,
           (overpass_request S gha dohResp nowMicro cache data none error_pause
              gp2rest rest).cache⟩) ∧
    (∀ (S : Settings) (gha : String → Except Unit String) (dohResp : Option Response)
        (nowMicro : Int) (cache : CacheDir) (data : List (String × String))
        (error_pause : Int) (polls : List Poll) (r : Response) (rest : List Response)
        (ip : String) (p1 : Int) (gp1evs : List Ev) (gp1rest : List Poll),
        gha (hostname_from_url S.overpass_endpoint) = .ok ip →
        retrieve_from_cache S cache (overpassPreparedUrl S data) true = .ok none →
        get_pause S nowMicro polls 5 60 = ⟨gp1evs, gp1rest, .ok p1⟩ →
        ¬(r.status_code = 429 ∨ r.status_code = 504) →
        overpass_request S gha dohResp nowMicro cache data none error_pause polls (r :: rest) =
          ⟨Ev.gethostbyname (hostname_from_url S.overpass_endpoint) :: gp1evs ++
             [Ev.sleep p1, Ev.httpPost],
           parse_response r,
           match parse_response r with
           | .error _ => cache
           | .ok j => save_to_cache S cache (overpassPreparedUrl S data) j
                        r.status_code⟩) ∧
    overpass_request SnoCache (fun _ => .ok "1.2.3.4") none 0 [] [("data", "q")] none 60 []
        [⟨429, none⟩, ⟨429, none⟩, ⟨200, some elemsBody⟩] =
      ⟨[Ev.gethostbyname "o.de", Ev.sleep 0, Ev.httpPost, Ev.sleep 60,
        Ev.gethostbyname "o.de", Ev.sleep 0, Ev.httpPost, Ev.sleep 60,
        Ev.gethostbyname "o.de", Ev.sleep 0, Ev.httpPost],
       .ok elemsBody, []⟩ := by
  refine ⟨?_, ?_, ?_, ?_⟩
  · intro S cache params rt pause error_pause retries
    induction retries with
    | nil =>
      intro final rest hrt hmiss _ hfinal
      cases hp : parse_response final <;>
        simp [nominatim_request, hrt, hmiss, hfinal, hp]
    | cons r rs ih =>
      intro final rest hrt hmiss hretries hfinal
      have hr : r.status_code = 429 ∨ r.status_code = 504 := hretries r (by simp)
      have ih2 := ih final rest hrt hmiss (fun x hx => hretries x (by simp [hx])) hfinal
      simp [nominatim_request, hrt, hmiss, hr, ih2]
  · intro S gha dohResp nowMicro cache data error_pause polls r rest ip p1 p2
      gp1evs gp1rest gp2evs gp2rest hgha hmiss hgp1 hgp2 hr
    have hcfg : config_dns S gha dohResp S.overpass_endpoint =
        (.ok (some (hostname_from_url S.overpass_endpoint, ip)),
         [Ev.gethostbyname (hostname_from_url S.overpass_endpoint)]) := by
      simp [config_dns, hgha]
    rw [overpass_request.eq_1, hcfg]
    simp [hmiss, hgp1, hgp2, hr]
  · intro S gha dohResp nowMicro cache data error_pause polls r rest ip p1
      gp1evs gp1rest hgha hmiss hgp1 hnr
    have hcfg : config_dns S gha dohResp S.overpass_endpoint =
        (.ok (some (hostname_from_url S.overpass_endpoint, ip)),
         [Ev.gethostbyname (hostname_from_url S.overpass_endpoint)]) := by
      simp [config_dns, hgha]
    rw [overpass_request.eq_1, hcfg]
    cases hp : parse_response r <;> simp [hmiss, hgp1, hnr, hp]
  · rfl

/-- C6 witness: the Nominatim conjunct at the concrete response sequence
(429, 429, 200) — exactly two backoff sleeps of `error_pause = 60` and one
parsed result, which is cached — and the Overpass retry-step conjunct at a
concrete (429, 200) sequence, whose step equation evaluates to the full
one-backoff trace. -/
theorem backoff_retry_transparent_witness :
    nominatim_request SnoCache [] [("q", "x")] "search" 1 60
        [⟨429, none⟩, ⟨429, none⟩, ⟨200, some elemsBody⟩] =
      ⟨[Ev.sleep 1, Ev.httpGet, Ev.sleep 60, Ev.sleep 1, Ev.httpGet, Ev.sleep 60,
        Ev.sleep 1, Ev.httpGet], .ok elemsBody, []⟩ ∧
    overpass_request SnoCache (fun _ => .ok "1.2.3.4") none 0 [] [("data", "q")] none 60 []
        [⟨429, none⟩, ⟨200, some elemsBody⟩] =
      ⟨[Ev.gethostbyname "o.de", Ev.sleep 0, Ev.httpPost, Ev.sleep 60,
        Ev.gethostbyname "o.de", Ev.sleep 0, Ev.httpPost],
       .ok elemsBody, []⟩ := by
  constructor
  · have h := backoff_retry_transparent.1 SnoCache [] [("q", "x")] "search" 1 60
      [⟨429, none⟩, ⟨429, none⟩] ⟨200, some elemsBody⟩ []
      (Or.inl rfl) rfl
      (by rintro x hx; simp at hx; simp [hx])
      (by simp)
    exact h.trans (by rfl)
  · have h := backoff_retry_transparent.2.1 SnoCache (fun _ => .ok "1.2.3.4") none 0 []
      [("data", "q")] 60 [] ⟨429, none⟩ [⟨200, some elemsBody⟩] "1.2.3.4" 0 0 [] [] [] []
      rfl rfl rfl rfl (Or.inl rfl)
    exact h.trans (by rfl)

/-! ## C4 — cache hit short-circuits the pipeline (but Overpass pins DNS
first) -/

/-- Helper: whenever the DNS pin succeeds and the cache lookup hits, the
Overpass pipeline returns the cached body with only the pin's events, for
any pause argument and any oracles. -/
theorem overpass_cache_hit_eq (S : Settings) (gha : String → Except Unit String)
    (dohResp : Option Response) (nowMicro : Int) (cache : CacheDir)
    (data : List (String × String)) (pause : Option Int) (error_pause : Int)
    (polls : List Poll) (responses : List Response) (pin : PinState)
    (evs : List Ev) (body : Json)
    (hcfg : config_dns S gha dohResp S.overpass_endpoint = (.ok pin, evs))
    (hhit : retrieve_from_cache S cache (overpassPreparedUrl S data) true = .ok (some body)) :
    overpass_request S gha dohResp nowMicro cache data pause error_pause polls responses =
      ⟨evs, .ok body, cache⟩ := by
  cases pause with
  | none => rw [overpass_request.eq_1, hcfg]; simp [hhit]
  | some p => rw [overpass_request.eq_2, hcfg]; simp [hhit]

/-- C4 (amended): when the prepared URL has a usable cached entry, every
request flavor returns the cached JSON with no slot-status poll, no sleep
and no HTTP send, leaving the cache unchanged; the Nominatim and Elevation
flavors perform zero network calls, but the Overpass flavor performs the
DNS pin (one `gethostbyname` resolution) BEFORE the cache lookup, so one
DNS network call still occurs on a cache hit. -/
theorem cache_hit_short_circuit :
    (∀ (S : Settings) (gha : String → Except Unit String) (dohResp : Option Response)
        (nowMicro : Int) (cache : CacheDir) (data : List (String × String))
        (pause : Option Int) (error_pause : Int) (polls : List Poll)
        (responses : List Response) (ip : String) (body : Json),
        gha (hostname_from_url S.overpass_endpoint) = .ok ip →
        retrieve_from_cache S cache (overpassPreparedUrl S data) true = .ok (some body) →
        overpass_request S gha dohResp nowMicro cache data pause error_pause polls responses =
          ⟨[Ev.gethostbyname (hostname_from_url S.overpass_endpoint)], .ok body, cache⟩) ∧
    (∀ (S : Settings) (cache : CacheDir) (params : List (String × String)) (rt : String)
        (pause error_pause : Int) (responses : List Response) (body : Json),
        (rt = "search" ∨ rt = "reverse" ∨ rt = "lookup") →
        retrieve_from_cache S cache (nominatimPreparedUrl S params rt) true = .ok (some body) →
        nominatim_request S cache params rt pause error_pause responses =
          ⟨[], .ok body, cache⟩) ∧
    (∀ (S : Settings) (cache : CacheDir) (url : String) (pause : Int)
        (responses : List Response) (body : Json),
        retrieve_from_cache S cache url true = .ok (some body) →
        google_request S cache url pause responses = ⟨[], .ok body, cache⟩) := by
  refine ⟨fun S gha dohResp nowMicro cache data pause error_pause polls responses ip body
      hgha hhit => ?_, fun S cache params rt pause error_pause responses body hrt hhit => ?_,
    fun S cache url pause responses body hhit => ?_⟩
  · exact overpass_cache_hit_eq S gha dohResp nowMicro cache data pause error_pause
      polls responses (some (hostname_from_url S.overpass_endpoint, ip))
      [Ev.gethostbyname (hostname_from_url S.overpass_endpoint)] body
      (by simp [config_dns, hgha]) hhit
  · simp [nominatim_request, hrt, hhit]
  · simp [google_request, hhit]

/-- C4 witness: the Overpass conjunct at a concrete cached entry. -/
theorem cache_hit_short_circuit_witness :
    overpass_request Sdefault (fun _ => .ok "1.2.3.4") none 0 cacheHit
        [("data", "q")] none 60 [] [] =
      ⟨[Ev.gethostbyname "overpass-api.de"], .ok elemsBody, cacheHit⟩ :=
  cache_hit_short_circuit.1 Sdefault (fun _ => .ok "1.2.3.4") none 0 cacheHit
    [("data", "q")] none 60 [] [] "1.2.3.4" elemsBody rfl (by rfl)

/-- C4 counterexample: the claim promises ZERO network calls on a cache hit
(`"no DNS resolution"`), but the Overpass pipeline resolves the endpoint's
hostname (a `socket.gethostbyname` network call) before consulting the
cache: the event trace of a fully cache-hit request is nonempty. -/
theorem overpass_cache_hit_resolves_dns_cex :
    (overpass_request Sdefault (fun _ => .ok "1.2.3.4") none 0 cacheHit
        [("data", "q")] none 60 [] []).events =
      [Ev.gethostbyname "overpass-api.de"] ∧
    [Ev.gethostbyname "overpass-api.de"] ≠ ([] : List Ev) :=
  ⟨by
    rw [overpass_cache_hit_eq Sdefault (fun _ => .ok "1.2.3.4") none 0 cacheHit
      [("data", "q")] none 60 [] [] (some ("overpass-api.de", "1.2.3.4"))
      [Ev.gethostbyname "overpass-api.de"] elemsBody rfl (by rfl)],
   fun h => List.noConfusion h⟩

/-! ## C2 — caller-supplied pause makes `_overpass_request` crash -/

/-- C2 refutation (code bug): with a caller-supplied non-`None` pause and a
cache miss, `_overpass_request` raises `UnboundLocalError` before sending
the HTTP request — `this_pause` is only assigned in the `pause is None`
branch, yet the pre-sleep log statement reads it unconditionally. The trace
shows the DNS pin happened but no sleep and no POST, even though a 200
response was available from the server. -/
theorem overpass_pause_override_raises_unbound :
    overpass_request SnoCache (fun _ => .ok "1.2.3.4") none 0 [] [("data", "q")]
        (some 1) 60 [] [⟨200, some elemsBody⟩] =
      ⟨[Ev.gethostbyname "o.de"], .error .unboundLocal, []⟩ :=
  rfl

/-! ## C3 — failed-status responses are cached anyway -/

/-- C3 refutation (code bug): every call site passes
`response.status_code` — not `response.ok` as `_save_to_cache`'s docstring
specifies — as the `ok` argument. An HTTP status code is never 0, so it is
always truthy and the "only store on success" guard is dead: a 404 response
whose body is valid JSON is parsed, RETURNED as the result, and written to
the cache, although `response.ok` is false. -/
theorem failed_status_is_cached :
    nominatim_request SwithCache [] [("q", "x")] "search" 1 60 [⟨404, some errBody⟩] =
      ⟨[Ev.sleep 1, Ev.httpGet], .ok errBody,
       [(cacheFilename (nominatimPreparedUrl SwithCache [("q", "x")] "search"), errBody)]⟩ ∧
    Response.ok ⟨404, some errBody⟩ = false :=
  ⟨rfl, rfl⟩

/-! ## C1 — DNS pinning is neither idempotent nor cumulative -/

/-- C1 (amended): `_config_dns(url)` ALWAYS performs a resolution call
(even for an already-pinned hostname — it keeps no record of earlier pins)
and installs a process-wide override that REPLACES any previous one: after
the call, resolution of the URL's hostname returns the IP resolved by that
very call, and resolution of every other hostname — including any hostname
pinned earlier — falls through to the original resolver captured at module
import. -/
theorem dns_pin_replaces_override (S : Settings) (gha : String → Except Unit String)
    (dohResp : Option Response) (url ip : String)
    (hgha : gha (hostname_from_url url) = .ok ip) :
    config_dns S gha dohResp url =
      (.ok (some (hostname_from_url url, ip)),
       [Ev.gethostbyname (hostname_from_url url)]) ∧
    (∀ orig host, installedGetaddrinfo (some (hostname_from_url url, ip)) orig host =
      if host = hostname_from_url url then orig ip else orig host) :=
  ⟨by simp [config_dns, hgha], fun orig host => rfl⟩

/-- C1 witness: the theorem at a concrete resolver and URL. -/
theorem dns_pin_replaces_override_witness :
    config_dns Sdefault ghaDemo none "http://a.com/q" =
      (.ok (some ("a.com", "ip-a.com")), [Ev.gethostbyname "a.com"]) :=
  (dns_pin_replaces_override Sdefault ghaDemo none "http://a.com/q" "ip-a.com" rfl).1

/-- C1 counterexample: pinning is not idempotent and later pins affect
earlier ones. First conjunct: a (repeat) pin of `"a.com"` still performs a
resolution call — `_config_dns` consults no state, so a second identical
call emits the same nonempty event list, refuting "no new resolution call".
Remaining conjuncts: after a later pin of `"b.com"`, the installed resolver
maps the previously pinned `"a.com"` through the ORIGINAL resolver (here
the identity), yielding `"a.com"` — not the `"ip-a.com"` it was pinned to —
refuting "resolution of a previously pinned hostname is unaffected by a
later pin". -/
theorem dns_pin_not_idempotent_cex :
    (config_dns Sdefault ghaDemo none "http://a.com/q").2 = [Ev.gethostbyname "a.com"] ∧
    [Ev.gethostbyname "a.com"] ≠ ([] : List Ev) ∧
    (config_dns Sdefault ghaDemo none "http://b.com/q").1 =
      .ok (some ("b.com", "ip-b.com")) ∧
    installedGetaddrinfo (some ("b.com", "ip-b.com")) id "a.com" = "a.com" ∧
    ("a.com" : String) ≠ "ip-a.com" :=
  ⟨rfl, fun h => List.noConfusion h, rfl, rfl, by decide⟩
